import Mathlib

/-!
# Verification of the batch fermentation simulator

Shallow embedding of `src/fermantation-unit-test-7.py`.  Real numbers of the
source are modelled as rationals (`ℚ`), so every definition is executable and
every concrete evaluation is decidable.

The source defines the ODE right-hand side `fermentation_odes` over five state
variables (sugar, ethanol, CO2, temperature, pH) with module-level constants;
the design gathers those constants into an immutable `Parameters` record passed
into every call, which we follow (the formulas are taken verbatim from lines
31–37 of the source, with each module constant becoming the record field of the
same name).  Integration is delegated by the source to `scipy.solve_ivp`
(method RK45) on a uniform 500-point grid over `[0, 300]`; the integrator is
external library code, so it is modelled from the spec (see `rk4Step`).
-/

/-- Immutable record of the model constants.  Field names follow the
module-level constants of the source (lines 8–21). -/
structure Parameters where
  K_fermentation : ℚ
  Y_ethanol : ℚ
  Y_CO2 : ℚ
  m : ℚ
  c_p : ℚ
  Q_fermentation : ℚ
  Q_cooling : ℚ
  K_pH : ℚ
  buffer_capacity : ℚ
deriving DecidableEq, Repr

/-- The 5-dimensional process state `y = [C_sugar, C_ethanol, C_CO2, T, pH]`
(source line 26). -/
structure State where
  C_sugar : ℚ
  C_ethanol : ℚ
  C_CO2 : ℚ
  T : ℚ
  pH : ℚ
deriving DecidableEq, Repr

/-- Componentwise sum of two states (vector addition of the ODE state). -/
def State.add (a b : State) : State :=
  ⟨a.C_sugar + b.C_sugar, a.C_ethanol + b.C_ethanol, a.C_CO2 + b.C_CO2,
   a.T + b.T, a.pH + b.pH⟩

/-- Componentwise scaling of a state by a rational. -/
def State.smul (c : ℚ) (a : State) : State :=
  ⟨c * a.C_sugar, c * a.C_ethanol, c * a.C_CO2, c * a.T, c * a.pH⟩

/-- The ODE right-hand side, source lines 23–39:
`dC_sugar_dt = -K_fermentation * C_sugar`,
`dC_ethanol_dt = Y_ethanol * K_fermentation * C_sugar`,
`dC_CO2_dt = Y_CO2 * K_fermentation * C_sugar`,
`dT_dt = (Q_fermentation - Q_cooling) / (m * c_p)`,
`dpH_dt = max(-K_pH * C_sugar, -buffer_capacity) if pH > 4 else 0`. -/
def fermentation_odes (p : Parameters) (y : State) : State where
  C_sugar := -p.K_fermentation * y.C_sugar
  C_ethanol := p.Y_ethanol * p.K_fermentation * y.C_sugar
  C_CO2 := p.Y_CO2 * p.K_fermentation * y.C_sugar
  T := (p.Q_fermentation - p.Q_cooling) / (p.m * p.c_p)
  pH := if y.pH > 4 then max (-p.K_pH * y.C_sugar) (-p.buffer_capacity) else 0

/-- The concrete constant values of the source module (lines 8–21). -/
def defaultParams : Parameters where
  K_fermentation := 1/10
  Y_ethanol := 1/2
  Y_CO2 := 1/2
  m := 1
  c_p := 4184
  Q_fermentation := 500
  Q_cooling := 500
  K_pH := 1/100
  buffer_capacity := 1/10

/-- The initial conditions `y0 = [100, 0, 0, 25, 5.0]` (source line 42). -/
def y0 : State where
  C_sugar := 100
  C_ethanol := 0
  C_CO2 := 0
  T := 25
  pH := 5

@[simp] lemma State.add_sugar (a b : State) :
    (a.add b).C_sugar = a.C_sugar + b.C_sugar := rfl

@[simp] lemma State.add_ethanol (a b : State) :
    (a.add b).C_ethanol = a.C_ethanol + b.C_ethanol := rfl

@[simp] lemma State.add_CO2 (a b : State) :
    (a.add b).C_CO2 = a.C_CO2 + b.C_CO2 := rfl

@[simp] lemma State.add_T (a b : State) : (a.add b).T = a.T + b.T := rfl

@[simp] lemma State.add_pH (a b : State) : (a.add b).pH = a.pH + b.pH := rfl

@[simp] lemma State.smul_sugar (c : ℚ) (a : State) :
    (State.smul c a).C_sugar = c * a.C_sugar := rfl

@[simp] lemma State.smul_ethanol (c : ℚ) (a : State) :
    (State.smul c a).C_ethanol = c * a.C_ethanol := rfl

@[simp] lemma State.smul_CO2 (c : ℚ) (a : State) :
    (State.smul c a).C_CO2 = c * a.C_CO2 := rfl

@[simp] lemma State.smul_T (c : ℚ) (a : State) :
    (State.smul c a).T = c * a.T := rfl

@[simp] lemma State.smul_pH (c : ℚ) (a : State) :
    (State.smul c a).pH = c * a.pH := rfl

@[simp] lemma odes_sugar (p : Parameters) (y : State) :
    (fermentation_odes p y).C_sugar = -p.K_fermentation * y.C_sugar := rfl

@[simp] lemma odes_ethanol (p : Parameters) (y : State) :
    (fermentation_odes p y).C_ethanol = p.Y_ethanol * p.K_fermentation * y.C_sugar := rfl

@[simp] lemma odes_CO2 (p : Parameters) (y : State) :
    (fermentation_odes p y).C_CO2 = p.Y_CO2 * p.K_fermentation * y.C_sugar := rfl

@[simp] lemma odes_T (p : Parameters) (y : State) :
    (fermentation_odes p y).T = (p.Q_fermentation - p.Q_cooling) / (p.m * p.c_p) := rfl

lemma odes_pH (p : Parameters) (y : State) :
    (fermentation_odes p y).pH =
      if y.pH > 4 then max (-p.K_pH * y.C_sugar) (-p.buffer_capacity) else 0 := rfl

/-- C1: for every state and Parameters record, the derivative returns
`d_sugar = −k_ferm·sugar`, `d_ethanol = Y_ethanol·k_ferm·sugar`,
`d_CO2 = Y_CO2·k_ferm·sugar`, `d_T = (Q_ferm − Q_cool)/(mass·c_p)`,
and `d_T` does not depend on any state variable. -/
theorem derivative_components (p : Parameters) (y : State) :
    (fermentation_odes p y).C_sugar = -(p.K_fermentation * y.C_sugar) ∧
    (fermentation_odes p y).C_ethanol = p.Y_ethanol * p.K_fermentation * y.C_sugar ∧
    (fermentation_odes p y).C_CO2 = p.Y_CO2 * p.K_fermentation * y.C_sugar ∧
    (fermentation_odes p y).T = (p.Q_fermentation - p.Q_cooling) / (p.m * p.c_p) ∧
    ∀ y' : State, (fermentation_odes p y).T = (fermentation_odes p y').T := by
  refine ⟨by simp, rfl, rfl, rfl, fun y' => rfl⟩

/-- C2: the pH component of the derivative follows the two-branch rule:
if `pH > 4` then `d_pH = max(−k_pH·sugar, −buffer_capacity)`, and
if `pH ≤ 4` then `d_pH = 0`. -/
theorem derivative_pH_branches (p : Parameters) (y : State) :
    (y.pH > 4 →
      (fermentation_odes p y).pH = max (-(p.K_pH * y.C_sugar)) (-p.buffer_capacity)) ∧
    (y.pH ≤ 4 → (fermentation_odes p y).pH = 0) := by
  constructor
  · intro h4
    rw [odes_pH, if_pos h4, neg_mul]
  · intro h4
    rw [odes_pH, if_neg (not_lt.mpr h4)]

/-- Witness for C2 at the source's initial state (pH = 5 > 4) and constants. -/
theorem derivative_pH_branches_witness :
    (fermentation_odes defaultParams y0).pH =
      max (-((1:ℚ)/100 * 100)) (-(1/10)) :=
  (derivative_pH_branches defaultParams y0).1 (by norm_num [y0])

/-- C10: the derivative components satisfy
`d_ethanol + d_CO2 = −(Y_ethanol + Y_CO2)·d_sugar`; with the source's values
`Y_ethanol = Y_CO2 = 0.5` the sum `sugar + ethanol + CO2` has zero derivative. -/
theorem derivative_mass_balance (p : Parameters) (y : State) :
    (fermentation_odes p y).C_ethanol + (fermentation_odes p y).C_CO2 =
      -(p.Y_ethanol + p.Y_CO2) * (fermentation_odes p y).C_sugar ∧
    ∀ y' : State,
      (fermentation_odes defaultParams y').C_sugar +
        (fermentation_odes defaultParams y').C_ethanol +
        (fermentation_odes defaultParams y').C_CO2 = 0 := by
  constructor
  · simp
    ring
  · intro y'
    simp [defaultParams]
    ring

/-!
## Integrator and sampler, modelled from the spec

The source delegates integration to `scipy.integrate.solve_ivp` (line 49),
external library code.  Modelled from the spec: §4.2 prescribes an adaptive
explicit Runge–Kutta (order 4/5 pair) whose accepted steps advance the state,
and §4.3 a sampler that evaluates the solution on `N` evenly spaced times
including both endpoints, exact at `t = 0`.  We model one accepted step as the
classical fourth-order explicit Runge–Kutta advance (the propagating estimate
of the embedded pair) and take the accepted steps to fall on the uniform
sample grid; the adaptive error controller is abstracted into the step-size
stability hypothesis `h · k_ferm ≤ 1` carried by the trajectory theorems.
-/

/-- Second Runge–Kutta stage state: `y + (h/2)·k1`. -/
def rkStage2 (p : Parameters) (h : ℚ) (y : State) : State :=
  y.add (State.smul (h/2) (fermentation_odes p y))

/-- Third Runge–Kutta stage state: `y + (h/2)·k2`. -/
def rkStage3 (p : Parameters) (h : ℚ) (y : State) : State :=
  y.add (State.smul (h/2) (fermentation_odes p (rkStage2 p h y)))

/-- Fourth Runge–Kutta stage state: `y + h·k3`. -/
def rkStage4 (p : Parameters) (h : ℚ) (y : State) : State :=
  y.add (State.smul h (fermentation_odes p (rkStage3 p h y)))

/-- Modelled from the spec (§4.2): one accepted explicit Runge–Kutta step
`y + (h/6)·(k1 + 2·k2 + 2·k3 + k4)` of the integrator behind
`solve_ivp(..., method='RK45')`, which is not part of the repository source. -/
def rk4Step (p : Parameters) (h : ℚ) (y : State) : State :=
  y.add (State.smul (h/6)
    ((fermentation_odes p y).add
      ((State.smul 2 (fermentation_odes p (rkStage2 p h y))).add
        ((State.smul 2 (fermentation_odes p (rkStage3 p h y))).add
          (fermentation_odes p (rkStage4 p h y))))))

/-- `integrate p h y n` is the state after `n` accepted steps of size `h`. -/
def integrate (p : Parameters) (h : ℚ) (y : State) : ℕ → State
  | 0 => y
  | n + 1 => rk4Step p h (integrate p h y n)

/-- One (time, State) sample of a trajectory. -/
structure Sample where
  t : ℚ
  y : State
deriving DecidableEq, Repr

/-- The uniform grid spacing for `N` samples on `[0, tEnd]`
(`np.linspace(0, tEnd, N)`, source line 46). -/
def stepSize (tEnd : ℚ) (N : ℕ) : ℚ := tEnd / ((N - 1 : ℕ) : ℚ)

/-- Modelled from the spec (§4.3): the Trajectory, `N` samples at evenly
spaced times `i · tEnd/(N−1)`, the `i`-th holding the state after `i`
accepted steps.  The sampling of the dense output by `solve_ivp` at `t_eval`
(source lines 46–49) is not repository source. -/
def trajectory (p : Parameters) (y₀ : State) (tEnd : ℚ) (N : ℕ) : List Sample :=
  (List.range N).map
    (fun (i : ℕ) => ⟨(i : ℚ) * stepSize tEnd N, integrate p (stepSize tEnd N) y₀ i⟩)

/-- Errors of the simulation pipeline (spec §7). -/
inductive SimError where
  | InvalidParameterError
  | InvalidStateError
deriving DecidableEq, Repr

/-- Modelled from the spec (§7): `Parameters` are valid when `k_ferm > 0`,
`mass > 0`, `c_p > 0`, `buffer_capacity ≥ 0` and both yield fractions are
non-negative.  The source keeps these as unvalidated module globals. -/
def validParams (p : Parameters) : Prop :=
  0 < p.K_fermentation ∧ 0 < p.m ∧ 0 < p.c_p ∧
    0 ≤ p.buffer_capacity ∧ 0 ≤ p.Y_ethanol ∧ 0 ≤ p.Y_CO2

instance (p : Parameters) : Decidable (validParams p) := by
  unfold validParams
  infer_instance

/-- Modelled from the spec (§6, §7): the full pipeline.  Parameters are
validated first (`InvalidParameterError`), then the initial state
(`InvalidStateError`, sugar ≥ 0); only then is a Trajectory produced. -/
def runSimulation (p : Parameters) (y₀ : State) (tEnd : ℚ) (N : ℕ) :
    Except SimError (List Sample) :=
  if validParams p then
    if y₀.C_sugar < 0 then .error .InvalidStateError
    else .ok (trajectory p y₀ tEnd N)
  else .error .InvalidParameterError

@[simp] lemma trajectory_length (p : Parameters) (y₀ : State) (tEnd : ℚ) (N : ℕ) :
    (trajectory p y₀ tEnd N).length = N := by
  simp [trajectory]

lemma trajectory_get (p : Parameters) (y₀ : State) (tEnd : ℚ) (N : ℕ)
    (i : ℕ) (hi : i < (trajectory p y₀ tEnd N).length) :
    (trajectory p y₀ tEnd N).get ⟨i, hi⟩ =
      ⟨(i : ℚ) * stepSize tEnd N, integrate p (stepSize tEnd N) y₀ i⟩ := by
  simp [trajectory]

/-!
## One-step formulas

The sugar/ethanol/CO2/temperature components of a Runge–Kutta step admit
closed forms because their rates do not depend on pH; the pH component is
handled through the branch structure of `fermentation_odes`.
-/

lemma rkStage2_sugar (p : Parameters) (h : ℚ) (y : State) :
    (rkStage2 p h y).C_sugar =
      y.C_sugar * (1 - h * p.K_fermentation / 2) := by
  simp [rkStage2]
  ring

lemma rkStage3_sugar (p : Parameters) (h : ℚ) (y : State) :
    (rkStage3 p h y).C_sugar =
      y.C_sugar *
        (1 - h * p.K_fermentation / 2 + (h * p.K_fermentation)^2 / 4) := by
  simp [rkStage3, rkStage2]
  ring

lemma rkStage4_sugar (p : Parameters) (h : ℚ) (y : State) :
    (rkStage4 p h y).C_sugar =
      y.C_sugar *
        (1 - h * p.K_fermentation + (h * p.K_fermentation)^2 / 2 -
          (h * p.K_fermentation)^3 / 4) := by
  simp [rkStage4, rkStage3, rkStage2]
  ring

lemma rk4Step_sugar (p : Parameters) (h : ℚ) (y : State) :
    (rk4Step p h y).C_sugar =
      y.C_sugar *
        (1 - h * p.K_fermentation + (h * p.K_fermentation)^2 / 2 -
          (h * p.K_fermentation)^3 / 6 + (h * p.K_fermentation)^4 / 24) := by
  simp [rk4Step, rkStage4, rkStage3, rkStage2]
  ring

lemma rk4Step_ethanol (p : Parameters) (h : ℚ) (y : State) :
    (rk4Step p h y).C_ethanol =
      y.C_ethanol +
        h * p.Y_ethanol * p.K_fermentation * y.C_sugar *
          (6 - 3 * (h * p.K_fermentation) + (h * p.K_fermentation)^2 -
            (h * p.K_fermentation)^3 / 4) / 6 := by
  simp [rk4Step, rkStage4, rkStage3, rkStage2]
  ring

lemma rk4Step_CO2 (p : Parameters) (h : ℚ) (y : State) :
    (rk4Step p h y).C_CO2 =
      y.C_CO2 +
        h * p.Y_CO2 * p.K_fermentation * y.C_sugar *
          (6 - 3 * (h * p.K_fermentation) + (h * p.K_fermentation)^2 -
            (h * p.K_fermentation)^3 / 4) / 6 := by
  simp [rk4Step, rkStage4, rkStage3, rkStage2]
  ring

lemma rk4Step_T (p : Parameters) (h : ℚ) (y : State) :
    (rk4Step p h y).T =
      y.T + h * ((p.Q_fermentation - p.Q_cooling) / (p.m * p.c_p)) := by
  simp [rk4Step, rkStage4, rkStage3, rkStage2]
  ring

lemma rkStage2_pH (p : Parameters) (h : ℚ) (y : State) :
    (rkStage2 p h y).pH = y.pH + h / 2 * (fermentation_odes p y).pH := rfl

lemma rkStage3_pH (p : Parameters) (h : ℚ) (y : State) :
    (rkStage3 p h y).pH =
      y.pH + h / 2 * (fermentation_odes p (rkStage2 p h y)).pH := rfl

lemma rkStage4_pH (p : Parameters) (h : ℚ) (y : State) :
    (rkStage4 p h y).pH =
      y.pH + h * (fermentation_odes p (rkStage3 p h y)).pH := rfl

lemma rk4Step_pH (p : Parameters) (h : ℚ) (y : State) :
    (rk4Step p h y).pH =
      y.pH + h / 6 *
        ((fermentation_odes p y).pH +
          (2 * (fermentation_odes p (rkStage2 p h y)).pH +
            (2 * (fermentation_odes p (rkStage3 p h y)).pH +
              (fermentation_odes p (rkStage4 p h y)).pH))) := rfl

/-- The pH rate is never positive for non-negative `K_pH`, buffer capacity
and sugar, whichever branch is taken. -/
lemma odes_pH_nonpos (p : Parameters) (y : State) (hk : 0 ≤ p.K_pH)
    (hB : 0 ≤ p.buffer_capacity) (hs : 0 ≤ y.C_sugar) :
    (fermentation_odes p y).pH ≤ 0 := by
  rw [odes_pH]
  split
  · exact max_le (by nlinarith) (by linarith)
  · exact le_refl 0

/-- At or below the pH floor the rate is exactly zero. -/
lemma odes_pH_freeze (p : Parameters) (y : State) (h4 : y.pH ≤ 4) :
    (fermentation_odes p y).pH = 0 := by
  rw [odes_pH, if_neg (not_lt.mpr h4)]

/-!
## One-step inequalities

`z` abbreviates `h * K_fermentation` in the comments below.  The sugar update
is multiplication by the degree-4 stability polynomial
`P(z) = 1 − z + z²/2 − z³/6 + z⁴/24`, which is positive for every real `z`
and at most `1` for `0 ≤ z ≤ 1` (the accepted-step regime).
-/

lemma rk4Step_sugar_nonneg (p : Parameters) (h : ℚ) (y : State)
    (hs : 0 ≤ y.C_sugar) : 0 ≤ (rk4Step p h y).C_sugar := by
  rw [rk4Step_sugar]
  refine mul_nonneg hs ?_
  nlinarith [sq_nonneg (h * p.K_fermentation * (h * p.K_fermentation - 2)),
    sq_nonneg (2 * (h * p.K_fermentation) - 3)]

lemma rk4Step_sugar_le (p : Parameters) (h : ℚ) (y : State)
    (hs : 0 ≤ y.C_sugar) (hz0 : 0 ≤ h * p.K_fermentation)
    (hz1 : h * p.K_fermentation ≤ 1) :
    (rk4Step p h y).C_sugar ≤ y.C_sugar := by
  rw [rk4Step_sugar]
  have h24 : 0 ≤ 24 - 12 * (h * p.K_fermentation) +
      4 * (h * p.K_fermentation)^2 - (h * p.K_fermentation)^3 := by
    nlinarith [mul_nonneg (sq_nonneg (h * p.K_fermentation))
      (show (0:ℚ) ≤ 4 - h * p.K_fermentation by linarith)]
  nlinarith [mul_nonneg (mul_nonneg hs hz0) h24]

lemma rkStage2_sugar_nonneg (p : Parameters) (h : ℚ) (y : State)
    (hs : 0 ≤ y.C_sugar) (hz1 : h * p.K_fermentation ≤ 1) :
    0 ≤ (rkStage2 p h y).C_sugar := by
  rw [rkStage2_sugar]
  refine mul_nonneg hs (by linarith)

lemma rkStage3_sugar_nonneg (p : Parameters) (h : ℚ) (y : State)
    (hs : 0 ≤ y.C_sugar) :
    0 ≤ (rkStage3 p h y).C_sugar := by
  rw [rkStage3_sugar]
  refine mul_nonneg hs ?_
  nlinarith [sq_nonneg (h * p.K_fermentation - 1)]

lemma rkStage4_sugar_nonneg (p : Parameters) (h : ℚ) (y : State)
    (hs : 0 ≤ y.C_sugar) (hz0 : 0 ≤ h * p.K_fermentation)
    (hz1 : h * p.K_fermentation ≤ 1) :
    0 ≤ (rkStage4 p h y).C_sugar := by
  rw [rkStage4_sugar]
  refine mul_nonneg hs ?_
  nlinarith [mul_nonneg (sq_nonneg (h * p.K_fermentation))
    (show (0:ℚ) ≤ 1 - h * p.K_fermentation by linarith)]

lemma rk4Step_ethanol_ge (p : Parameters) (h : ℚ) (y : State)
    (hs : 0 ≤ y.C_sugar) (hY : 0 ≤ p.Y_ethanol) (hK : 0 ≤ p.K_fermentation)
    (hh : 0 ≤ h) (hz1 : h * p.K_fermentation ≤ 1) :
    y.C_ethanol ≤ (rk4Step p h y).C_ethanol := by
  rw [rk4Step_ethanol]
  have hz0 : 0 ≤ h * p.K_fermentation := mul_nonneg hh hK
  have hB : 0 ≤ 6 - 3 * (h * p.K_fermentation) + (h * p.K_fermentation)^2 -
      (h * p.K_fermentation)^3 / 4 := by
    nlinarith [mul_nonneg (sq_nonneg (h * p.K_fermentation))
      (show (0:ℚ) ≤ 1 - h * p.K_fermentation by linarith)]
  nlinarith [mul_nonneg (mul_nonneg (mul_nonneg (mul_nonneg hh hY) hK) hs) hB]

lemma rk4Step_CO2_ge (p : Parameters) (h : ℚ) (y : State)
    (hs : 0 ≤ y.C_sugar) (hY : 0 ≤ p.Y_CO2) (hK : 0 ≤ p.K_fermentation)
    (hh : 0 ≤ h) (hz1 : h * p.K_fermentation ≤ 1) :
    y.C_CO2 ≤ (rk4Step p h y).C_CO2 := by
  rw [rk4Step_CO2]
  have hz0 : 0 ≤ h * p.K_fermentation := mul_nonneg hh hK
  have hB : 0 ≤ 6 - 3 * (h * p.K_fermentation) + (h * p.K_fermentation)^2 -
      (h * p.K_fermentation)^3 / 4 := by
    nlinarith [mul_nonneg (sq_nonneg (h * p.K_fermentation))
      (show (0:ℚ) ≤ 1 - h * p.K_fermentation by linarith)]
  nlinarith [mul_nonneg (mul_nonneg (mul_nonneg (mul_nonneg hh hY) hK) hs) hB]

lemma rk4Step_pH_le (p : Parameters) (h : ℚ) (y : State)
    (hk : 0 ≤ p.K_pH) (hB : 0 ≤ p.buffer_capacity) (hs : 0 ≤ y.C_sugar)
    (hK : 0 ≤ p.K_fermentation) (hh : 0 ≤ h)
    (hz1 : h * p.K_fermentation ≤ 1) :
    (rk4Step p h y).pH ≤ y.pH := by
  have hz0 : 0 ≤ h * p.K_fermentation := mul_nonneg hh hK
  have r1 := odes_pH_nonpos p y hk hB hs
  have r2 := odes_pH_nonpos p (rkStage2 p h y) hk hB
    (rkStage2_sugar_nonneg p h y hs hz1)
  have r3 := odes_pH_nonpos p (rkStage3 p h y) hk hB
    (rkStage3_sugar_nonneg p h y hs)
  have r4 := odes_pH_nonpos p (rkStage4 p h y) hk hB
    (rkStage4_sugar_nonneg p h y hs hz0 hz1)
  rw [rk4Step_pH]
  nlinarith [mul_nonneg hh (show (0:ℚ) ≤
    -((fermentation_odes p y).pH +
      (2 * (fermentation_odes p (rkStage2 p h y)).pH +
        (2 * (fermentation_odes p (rkStage3 p h y)).pH +
          (fermentation_odes p (rkStage4 p h y)).pH))) by linarith)]

lemma rk4Step_pH_frozen (p : Parameters) (h : ℚ) (y : State)
    (h4 : y.pH ≤ 4) : (rk4Step p h y).pH = y.pH := by
  have r1 : (fermentation_odes p y).pH = 0 := odes_pH_freeze p y h4
  have s2 : (rkStage2 p h y).pH = y.pH := by
    rw [rkStage2_pH, r1]
    ring
  have r2 : (fermentation_odes p (rkStage2 p h y)).pH = 0 :=
    odes_pH_freeze p _ (by rw [s2]; exact h4)
  have s3 : (rkStage3 p h y).pH = y.pH := by
    rw [rkStage3_pH, r2]
    ring
  have r3 : (fermentation_odes p (rkStage3 p h y)).pH = 0 :=
    odes_pH_freeze p _ (by rw [s3]; exact h4)
  have s4 : (rkStage4 p h y).pH = y.pH := by
    rw [rkStage4_pH, r3]
    ring
  have r4 : (fermentation_odes p (rkStage4 p h y)).pH = 0 :=
    odes_pH_freeze p _ (by rw [s4]; exact h4)
  rw [rk4Step_pH, r1, r2, r3, r4]
  ring

lemma rk4Step_T_const (p : Parameters) (h : ℚ) (y : State)
    (hQ : p.Q_fermentation = p.Q_cooling) : (rk4Step p h y).T = y.T := by
  rw [rk4Step_T, hQ]
  simp

/-!
## Invariants along the integration
-/

lemma integrate_sugar_nonneg (p : Parameters) (h : ℚ) (y : State)
    (hs : 0 ≤ y.C_sugar) : ∀ n, 0 ≤ (integrate p h y n).C_sugar := by
  intro n
  induction n with
  | zero => exact hs
  | succ n ih => exact rk4Step_sugar_nonneg p h _ ih

lemma integrate_sugar_mono (p : Parameters) (h : ℚ) (y : State)
    (hs : 0 ≤ y.C_sugar) (hz0 : 0 ≤ h * p.K_fermentation)
    (hz1 : h * p.K_fermentation ≤ 1) (n : ℕ) :
    (integrate p h y (n + 1)).C_sugar ≤ (integrate p h y n).C_sugar :=
  rk4Step_sugar_le p h _ (integrate_sugar_nonneg p h y hs n) hz0 hz1

lemma integrate_ethanol_mono (p : Parameters) (h : ℚ) (y : State)
    (hs : 0 ≤ y.C_sugar) (hY : 0 ≤ p.Y_ethanol) (hK : 0 ≤ p.K_fermentation)
    (hh : 0 ≤ h) (hz1 : h * p.K_fermentation ≤ 1) (n : ℕ) :
    (integrate p h y n).C_ethanol ≤ (integrate p h y (n + 1)).C_ethanol :=
  rk4Step_ethanol_ge p h _ (integrate_sugar_nonneg p h y hs n) hY hK hh hz1

lemma integrate_CO2_mono (p : Parameters) (h : ℚ) (y : State)
    (hs : 0 ≤ y.C_sugar) (hY : 0 ≤ p.Y_CO2) (hK : 0 ≤ p.K_fermentation)
    (hh : 0 ≤ h) (hz1 : h * p.K_fermentation ≤ 1) (n : ℕ) :
    (integrate p h y n).C_CO2 ≤ (integrate p h y (n + 1)).C_CO2 :=
  rk4Step_CO2_ge p h _ (integrate_sugar_nonneg p h y hs n) hY hK hh hz1

lemma integrate_pH_mono (p : Parameters) (h : ℚ) (y : State)
    (hs : 0 ≤ y.C_sugar) (hk : 0 ≤ p.K_pH) (hB : 0 ≤ p.buffer_capacity)
    (hK : 0 ≤ p.K_fermentation) (hh : 0 ≤ h)
    (hz1 : h * p.K_fermentation ≤ 1) (n : ℕ) :
    (integrate p h y (n + 1)).pH ≤ (integrate p h y n).pH :=
  rk4Step_pH_le p h _ hk hB (integrate_sugar_nonneg p h y hs n) hK hh hz1

lemma integrate_pH_frozen (p : Parameters) (h : ℚ) (y : State) (n : ℕ)
    (h4 : (integrate p h y n).pH ≤ 4) :
    ∀ d, (integrate p h y (n + d)).pH = (integrate p h y n).pH := by
  intro d
  induction d with
  | zero => rfl
  | succ d ih =>
    have : integrate p h y (n + (d + 1)) = rk4Step p h (integrate p h y (n + d)) := rfl
    rw [this, rk4Step_pH_frozen p h _ (by rw [ih]; exact h4), ih]

lemma integrate_T_const (p : Parameters) (h : ℚ) (y : State)
    (hQ : p.Q_fermentation = p.Q_cooling) :
    ∀ n, (integrate p h y n).T = y.T := by
  intro n
  induction n with
  | zero => rfl
  | succ n ih => rw [show integrate p h y (n + 1) = rk4Step p h (integrate p h y n) from rfl,
      rk4Step_T_const p h _ hQ, ih]

/-!
## Trajectory-level claims
-/

/-- C4: for valid Parameters (in particular `k_ferm > 0`) and `sugar0 ≥ 0`,
sugar is non-increasing between every pair of consecutive trajectory samples.
The step-size bound `h·k_ferm ≤ 1` models the accepted-step regime of the
adaptive controller. -/
theorem trajectory_sugar_nonincreasing (p : Parameters) (y₀ : State)
    (tEnd : ℚ) (N : ℕ) (hv : validParams p) (hs : 0 ≤ y₀.C_sugar)
    (hh : 0 ≤ stepSize tEnd N) (hz1 : stepSize tEnd N * p.K_fermentation ≤ 1)
    (i : ℕ) (hi : i + 1 < (trajectory p y₀ tEnd N).length) :
    ((trajectory p y₀ tEnd N).get ⟨i + 1, hi⟩).y.C_sugar ≤
      ((trajectory p y₀ tEnd N).get ⟨i, Nat.lt_of_succ_lt hi⟩).y.C_sugar := by
  rw [trajectory_get, trajectory_get]
  exact integrate_sugar_mono p _ y₀ hs (mul_nonneg hh (le_of_lt hv.1)) hz1 i

/-- C5: for valid Parameters and `sugar0 ≥ 0`, ethanol and CO2 are
non-decreasing between every pair of consecutive trajectory samples. -/
theorem trajectory_products_nondecreasing (p : Parameters) (y₀ : State)
    (tEnd : ℚ) (N : ℕ) (hv : validParams p) (hs : 0 ≤ y₀.C_sugar)
    (hh : 0 ≤ stepSize tEnd N) (hz1 : stepSize tEnd N * p.K_fermentation ≤ 1)
    (i : ℕ) (hi : i + 1 < (trajectory p y₀ tEnd N).length) :
    ((trajectory p y₀ tEnd N).get ⟨i, Nat.lt_of_succ_lt hi⟩).y.C_ethanol ≤
        ((trajectory p y₀ tEnd N).get ⟨i + 1, hi⟩).y.C_ethanol ∧
      ((trajectory p y₀ tEnd N).get ⟨i, Nat.lt_of_succ_lt hi⟩).y.C_CO2 ≤
        ((trajectory p y₀ tEnd N).get ⟨i + 1, hi⟩).y.C_CO2 := by
  rw [trajectory_get, trajectory_get]
  exact ⟨integrate_ethanol_mono p _ y₀ hs hv.2.2.2.2.1 (le_of_lt hv.1) hh hz1 i,
    integrate_CO2_mono p _ y₀ hs hv.2.2.2.2.2 (le_of_lt hv.1) hh hz1 i⟩

/-- C6: pH is non-increasing between consecutive samples, and once a sample's
pH is ≤ 4 every later sample carries exactly that same pH value. -/
theorem trajectory_pH_frozen_floor (p : Parameters) (y₀ : State)
    (tEnd : ℚ) (N : ℕ) (hv : validParams p) (hk : 0 ≤ p.K_pH)
    (hs : 0 ≤ y₀.C_sugar) (hh : 0 ≤ stepSize tEnd N)
    (hz1 : stepSize tEnd N * p.K_fermentation ≤ 1) :
    (∀ i (hi : i + 1 < (trajectory p y₀ tEnd N).length),
      ((trajectory p y₀ tEnd N).get ⟨i + 1, hi⟩).y.pH ≤
        ((trajectory p y₀ tEnd N).get ⟨i, Nat.lt_of_succ_lt hi⟩).y.pH) ∧
    ∀ i j (hij : i ≤ j) (hj : j < (trajectory p y₀ tEnd N).length),
      ((trajectory p y₀ tEnd N).get ⟨i, lt_of_le_of_lt hij hj⟩).y.pH ≤ 4 →
        ((trajectory p y₀ tEnd N).get ⟨j, hj⟩).y.pH =
          ((trajectory p y₀ tEnd N).get ⟨i, lt_of_le_of_lt hij hj⟩).y.pH := by
  constructor
  · intro i hi
    rw [trajectory_get, trajectory_get]
    exact integrate_pH_mono p _ y₀ hs hk hv.2.2.2.1 (le_of_lt hv.1) hh hz1 i
  · intro i j hij hj h4
    rw [trajectory_get] at h4 ⊢
    rw [trajectory_get]
    obtain ⟨d, rfl⟩ := Nat.exists_eq_add_of_le hij
    exact integrate_pH_frozen p _ y₀ i h4 d

/-- C7: if `Q_ferm = Q_cool`, every trajectory sample's temperature equals
the initial temperature exactly. -/
theorem trajectory_T_constant (p : Parameters) (y₀ : State)
    (tEnd : ℚ) (N : ℕ) (hQ : p.Q_fermentation = p.Q_cooling)
    (i : ℕ) (hi : i < (trajectory p y₀ tEnd N).length) :
    ((trajectory p y₀ tEnd N).get ⟨i, hi⟩).y.T = y₀.T := by
  rw [trajectory_get]
  exact integrate_T_const p _ y₀ hQ i

/-- C8: for any sample count `N ≥ 2`, the first trajectory sample is at
`t = 0` and carries exactly the initial State. -/
theorem trajectory_first_sample (p : Parameters) (y₀ : State)
    (tEnd : ℚ) (N : ℕ) (hN : 2 ≤ N)
    (h0 : 0 < (trajectory p y₀ tEnd N).length) :
    (trajectory p y₀ tEnd N).get ⟨0, h0⟩ = ⟨0, y₀⟩ := by
  rw [trajectory_get]
  simp [integrate]

/-- C9: the pipeline is deterministic — identical Parameters, initial State,
time span and sample count produce identical Trajectories. -/
theorem simulation_deterministic (p₁ p₂ : Parameters) (y₁ y₂ : State)
    (t₁ t₂ : ℚ) (N₁ N₂ : ℕ) (hp : p₁ = p₂) (hy : y₁ = y₂) (ht : t₁ = t₂)
    (hN : N₁ = N₂) :
    runSimulation p₁ y₁ t₁ N₁ = runSimulation p₂ y₂ t₂ N₂ := by
  subst hp hy ht hN
  rfl

/-- C3: Parameters with `mass ≤ 0` (or `k_ferm ≤ 0`, `c_p ≤ 0`,
`buffer_capacity < 0`, or a negative yield fraction) are rejected with
`InvalidParameterError` and no Trajectory is produced. -/
theorem invalid_parameters_rejected (p : Parameters) (y₀ : State)
    (tEnd : ℚ) (N : ℕ)
    (hbad : p.m ≤ 0 ∨ p.K_fermentation ≤ 0 ∨ p.c_p ≤ 0 ∨
      p.buffer_capacity < 0 ∨ p.Y_ethanol < 0 ∨ p.Y_CO2 < 0) :
    runSimulation p y₀ tEnd N = .error .InvalidParameterError := by
  have hnv : ¬ validParams p := by
    rintro ⟨h1, h2, h3, h4, h5, h6⟩
    rcases hbad with h | h | h | h | h | h <;> linarith
  unfold runSimulation
  rw [if_neg hnv]

/-- The source constants with the mass set to zero, the invalid-input
scenario of the spec (§8). -/
def zeroMassParams : Parameters where
  K_fermentation := 1/10
  Y_ethanol := 1/2
  Y_CO2 := 1/2
  m := 0
  c_p := 4184
  Q_fermentation := 500
  Q_cooling := 500
  K_pH := 1/100
  buffer_capacity := 1/10

/-!
## Witnesses at the source's concrete run
(`tEnd = 300`, `N = 500`, constants of lines 8–21, initial state of line 42;
the grid spacing is `300/499`, so `h · k_ferm = 30/499 ≤ 1`).
-/

/-- Witness for C3: zero mass is rejected before any integration. -/
theorem invalid_parameters_rejected_witness :
    runSimulation zeroMassParams y0 300 500 =
      .error .InvalidParameterError :=
  invalid_parameters_rejected zeroMassParams y0 300 500
    (Or.inl (by norm_num [zeroMassParams]))

/-- Witness for C4 at the first pair of samples of the source's run. -/
theorem trajectory_sugar_nonincreasing_witness :
    ((trajectory defaultParams y0 300 500).get ⟨1, by norm_num⟩).y.C_sugar ≤
      ((trajectory defaultParams y0 300 500).get ⟨0, by norm_num⟩).y.C_sugar :=
  trajectory_sugar_nonincreasing defaultParams y0 300 500
    (by norm_num [validParams, defaultParams]) (by norm_num [y0])
    (by norm_num [stepSize]) (by norm_num [stepSize, defaultParams])
    0 (by norm_num)

/-- Witness for C5 at the first pair of samples of the source's run. -/
theorem trajectory_products_nondecreasing_witness :
    ((trajectory defaultParams y0 300 500).get ⟨0, by norm_num⟩).y.C_ethanol ≤
        ((trajectory defaultParams y0 300 500).get ⟨1, by norm_num⟩).y.C_ethanol ∧
      ((trajectory defaultParams y0 300 500).get ⟨0, by norm_num⟩).y.C_CO2 ≤
        ((trajectory defaultParams y0 300 500).get ⟨1, by norm_num⟩).y.C_CO2 :=
  trajectory_products_nondecreasing defaultParams y0 300 500
    (by norm_num [validParams, defaultParams]) (by norm_num [y0])
    (by norm_num [stepSize]) (by norm_num [stepSize, defaultParams])
    0 (by norm_num)

/-- Witness for C6 at the first pair of samples of the source's run. -/
theorem trajectory_pH_frozen_floor_witness :
    ((trajectory defaultParams y0 300 500).get ⟨1, by norm_num⟩).y.pH ≤
      ((trajectory defaultParams y0 300 500).get ⟨0, by norm_num⟩).y.pH :=
  (trajectory_pH_frozen_floor defaultParams y0 300 500
    (by norm_num [validParams, defaultParams]) (by norm_num [defaultParams])
    (by norm_num [y0]) (by norm_num [stepSize])
    (by norm_num [stepSize, defaultParams])).1 0 (by norm_num)

/-- Witness for C7: with the source's `Q_fermentation = Q_cooling = 500` the
second sample's temperature equals the initial 25 °C. -/
theorem trajectory_T_constant_witness :
    ((trajectory defaultParams y0 300 500).get ⟨1, by norm_num⟩).y.T = y0.T :=
  trajectory_T_constant defaultParams y0 300 500
    (by norm_num [defaultParams]) 1 (by norm_num)

/-- Witness for C8 at the source's run. -/
theorem trajectory_first_sample_witness :
    (trajectory defaultParams y0 300 500).get ⟨0, by norm_num⟩ = ⟨0, y0⟩ :=
  trajectory_first_sample defaultParams y0 300 500 (by norm_num) (by norm_num)

/-- Witness for C9 at the source's run. -/
theorem simulation_deterministic_witness :
    runSimulation defaultParams y0 300 500 =
      runSimulation defaultParams y0 300 500 :=
  simulation_deterministic defaultParams defaultParams y0 y0 300 300 500 500
    rfl rfl rfl rfl
